import Mathlib

/-!
Shallow embedding of the homework-status Telegram bot (`homework.py`,
`exceptions.py`) and proofs about its behaviour.

JSON values are modelled by the inductive `JValue`; Python dicts become
association lists (insertion-ordered, no duplicate keys in practice), and
Python structural equality on values becomes `JValue.beq`.  Exceptions become
the inductive `Exc`, one constructor per exception class that the code can
raise (`TypeError`, `KeyError` and the four project-specific classes from
`exceptions.py`).  The network is an oracle supplied per cycle: a
`TransportResult` is either a raised transport exception or an HTTP exchange
carrying a status code and the decoded JSON body, and the Telegram send call
is an oracle `sendOk : Nat → Bool` giving the outcome of the k-th
`send_message` call of the cycle.  Observable behaviour (log lines, send
attempts, delivered messages, sleeping) is collected in a trace of `Event`s.
-/

/-- A decoded JSON value, as produced by `response.json()`. -/
inductive JValue where
  | null
  | bool (b : Bool)
  | int (n : Int)
  | str (s : String)
  | list (xs : List JValue)
  | dict (entries : List (String × JValue))
deriving Inhabited

/-- Structural equality of JSON values, mirroring Python `==` / `!=` on the
decoded values (dicts are modelled as insertion-ordered association lists). -/
def JValue.beq : JValue → JValue → Bool
  | .null, .null => true
  | .bool a, .bool b => a == b
  | .int a, .int b => a == b
  | .str a, .str b => a == b
  | .list xs, .list ys => beqList xs ys
  | .dict es, .dict fs => beqEntries es fs
  | _, _ => false
where
  beqList : List JValue → List JValue → Bool
    | [], [] => true
    | x :: xs, y :: ys => x.beq y && beqList xs ys
    | _, _ => false
  beqEntries : List (String × JValue) → List (String × JValue) → Bool
    | [], [] => true
    | (k, v) :: es, (l, w) :: fs => k == l && v.beq w && beqEntries es fs
    | _, _ => false

instance : BEq JValue := ⟨JValue.beq⟩

/-- A single ASCII apostrophe, used by Python `repr`/`str` rendering. -/
def pyQuote : String := String.singleton (Char.ofNat 39)

/-- Python `repr` of a decoded JSON value (the fallback used when a non-string
value is interpolated into an f-string inside a container). -/
def pyRepr : JValue → String
  | .null => "None"
  | .bool b => if b then "True" else "False"
  | .int n => toString n
  | .str s => pyQuote ++ s ++ pyQuote
  | .list xs => "[" ++ String.intercalate ", " (reprList xs) ++ "]"
  | .dict es => "\x7b" ++ String.intercalate ", " (reprEntries es) ++ "\x7d"
where
  reprList : List JValue → List String
    | [] => []
    | x :: xs => pyRepr x :: reprList xs
  reprEntries : List (String × JValue) → List String
    | [] => []
    | (k, v) :: es => (pyQuote ++ k ++ pyQuote ++ ": " ++ pyRepr v) :: reprEntries es

/-- Python `str` of a decoded JSON value (what an f-string interpolation
produces): a string renders as itself, everything else as its `repr`. -/
def pyStr : JValue → String
  | .str s => s
  | v => pyRepr v

/-- The exceptions the embedded code can raise: Python's built-in `TypeError`
and `KeyError`, and the four classes of `exceptions.py`, each carrying the
message it was constructed with. -/
inductive Exc where
  | typeError (msg : String)
  | keyError (msg : String)
  | getApiAnswerError (msg : String)
  | checkResponseError (msg : String)
  | parseStatusError (msg : String)
  | sendMessageError (msg : String)
deriving DecidableEq

/-- Python `str()` of an exception instance, as used by the driver's f-strings
`f'{info}'` and `f'Сбой в работе программы: {error}'`.  For ordinary
exceptions this is the message; `KeyError` is special in Python: its `str` is
the `repr` of its argument, so the message comes back wrapped in quotes. -/
def excStr : Exc → String
  | .typeError m => m
  | .keyError m => pyQuote ++ m ++ pyQuote
  | .getApiAnswerError m => m
  | .checkResponseError m => m
  | .parseStatusError m => m
  | .sendMessageError m => m

/-- `RETRY_PERIOD = 600`. -/
def RETRY_PERIOD : Nat := 600

/-- `ENDPOINT`. -/
def ENDPOINT : String := "https://practicum.yandex.ru/api/user_api/homework_statuses/"

/-- `HTTPStatus.OK`. -/
def HTTPStatusOK : Nat := 200

/-- `HOMEWORK_VERDICTS`: the fixed status → verdict lookup table. -/
def HOMEWORK_VERDICTS : List (String × String) :=
  [("approved", "Работа проверена: ревьюеру всё понравилось. Ура!"),
   ("reviewing", "Работа взята на проверку ревьюером."),
   ("rejected", "Работа проверена: у ревьюера есть замечания.")]

/-- Python truthiness of an optional environment variable: `os.getenv` yields
`None` when the variable is absent, and the empty string is falsy too. -/
def truthy : Option String → Bool
  | none => false
  | some s => !s.isEmpty

/-- `check_tokens()`: `all([PRACTICUM_TOKEN, TELEGRAM_TOKEN, TELEGRAM_CHAT_ID])`. -/
def check_tokens (practicumToken telegramToken telegramChatId : Option String) : Bool :=
  truthy practicumToken && truthy telegramToken && truthy telegramChatId

/-- An observable action of the bot: a log line at some level, a call into the
Telegram send API (`sendAttempt`), a message actually delivered to the chat
(`sent`), or `time.sleep`. -/
inductive Event where
  | logDebug (msg : String)
  | logInfo (msg : String)
  | logError (msg : String)
  | logCritical (msg : String)
  | sendAttempt (msg : String)
  | sent (msg : String)
  | sleep (seconds : Nat)
deriving DecidableEq

/-- `send_message(bot, message)`: one call into the Telegram API whose outcome
`ok` is supplied by the environment.  On success the message is delivered and
a debug line is logged; on failure an error line is logged and
`SendMessageError` is raised. -/
def send_message (ok : Bool) (message : String) : List Event × Option Exc :=
  if ok then
    ([Event.sendAttempt message, Event.sent message,
      Event.logDebug "Сообщение отправлено в чат"], none)
  else
    ([Event.sendAttempt message, Event.logError "Ошибка отправки сообщения в чат"],
     some (Exc.sendMessageError "Ошибка отправки сообщения в чат"))

/-- One cycle's worth of network behaviour: either `requests.get` raised, or
an HTTP exchange completed with the given status code and decoded JSON body. -/
inductive TransportResult where
  | exn
  | resp (statusCode : Nat) (body : JValue)

/-- `get_api_answer(timestamp)`: a transport exception becomes
`GetApiAnswerError`, a non-200 status becomes `GetApiAnswerError`, and a 200
response yields the decoded JSON body. -/
def get_api_answer (tr : TransportResult) : Except Exc JValue :=
  match tr with
  | .exn => .error (.getApiAnswerError ("Ошибка запроса к API-сервису " ++ ENDPOINT))
  | .resp statusCode body =>
    if statusCode ≠ HTTPStatusOK then
      .error (.getApiAnswerError "Передано что-то неожиданное при запросе к API")
    else
      .ok body

/-- Key lookup in a decoded JSON dict (`response[key]` / `key in response`). -/
def dictGet (v : JValue) (key : String) : Option JValue :=
  match v with
  | .dict es => es.lookup key
  | _ => none

/-- `check_response(response)`: the validator, checking in order that the
response is a dict, has the `homeworks` key, has the `current_date` key, that
`homeworks` is a list, and that the list is non-empty. -/
def check_response (response : JValue) : Except Exc Unit :=
  match response with
  | .dict es =>
    match es.lookup "homeworks" with
    | none => .error (.keyError "В ответе API нет ключа \"homeworks\"")
    | some homeworks =>
      match es.lookup "current_date" with
      | none => .error (.keyError "В ответе API нет ключа \"current_date\"")
      | some _ =>
        match homeworks with
        | .list [] => .error (.checkResponseError "Список домашних работ пуст")
        | .list (_ :: _) => .ok ()
        | _ => .error (.typeError "В ответе API данные домашек приходят не в виде списка")
  | _ => .error (.typeError "Ответ API не является словарем")

/-- `HOMEWORK_VERDICTS[status]` under `except Exception`: only a string key
present in the table yields a verdict; any other value (missing from the
table, or unhashable / non-string) makes the subscript raise, which the code
converts to `ParseStatusError`. -/
def statusVerdict : JValue → Option String
  | .str s => HOMEWORK_VERDICTS.lookup s
  | _ => none

/-- `parse_status(homework)`: requires a dict with `homework_name` and
`status`, maps the status through `HOMEWORK_VERDICTS` and interpolates name
and verdict into the fixed message template. -/
def parse_status (homework : JValue) : Except Exc String :=
  match homework with
  | .dict es =>
    match es.lookup "homework_name" with
    | none => .error (.keyError "В ответе API нет ключа \"homework_name\"")
    | some homeworkName =>
      match es.lookup "status" with
      | none => .error (.keyError "В ответе API нет ключа \"status\"")
      | some status =>
        match statusVerdict status with
        | none =>
          .error (.parseStatusError "Недокументированный статус домашки, либо домашка без статуса")
        | some verdict =>
          .ok ("Изменился статус проверки работы \"" ++ pyStr homeworkName ++ "\". " ++ verdict)
  | _ => .error (.typeError "Домашняя работа должна быть в виде словаря")

/-- The driver's mutable state: the poll cursor `timestamp` (a JSON value,
since `timestamp = response['current_date']` stores whatever the server
sent), the deduplication marker `previous_message` and the two last-message
markers. -/
structure BotState where
  timestamp : JValue
  previous_message : JValue
  error_message : String
  info_message : String

/-- The environment's behaviour during one cycle: the transport outcome and
the outcome of the k-th Telegram send call of this cycle. -/
structure CycleEnv where
  transport : TransportResult
  sendOk : Nat → Bool

/-- `response['homeworks'][0]`, defined after `check_response` has guaranteed
that `homeworks` is a non-empty list (the `.null` defaults are unreachable on
every path on which the driver evaluates this). -/
def firstHomework (response : JValue) : JValue :=
  match dictGet response "homeworks" with
  | some (.list (h :: _)) => h
  | _ => .null

/-- `response['current_date']`, defined after `check_response` has guaranteed
the key exists (the `.null` default is unreachable on the driver's paths). -/
def currentDate (response : JValue) : JValue :=
  (dictGet response "current_date").getD .null

/-- The `try` body of one driver cycle: fetch, validate, deduplicate,
extract, notify, record, advance cursor.  Returns the state as mutated so
far, the emitted events, the number of `send_message` calls made, and the
exception that escaped the body, if any. -/
def tryBody (st : BotState) (env : CycleEnv) : BotState × List Event × Nat × Option Exc :=
  match get_api_answer env.transport with
  | .error e => (st, [], 0, some e)
  | .ok response =>
    match check_response response with
    | .error e => (st, [], 0, some e)
    | .ok _ =>
      let homework := firstHomework response
      if homework == st.previous_message then
        ({ st with timestamp := currentDate response }, [], 0, none)
      else
        match parse_status homework with
        | .error e => (st, [], 0, some e)
        | .ok status =>
          match send_message (env.sendOk 0) status with
          | (evs, some e) => (st, evs, 1, some e)
          | (evs, none) =>
            ({ st with previous_message := homework, timestamp := currentDate response },
             evs, 1, none)

/-- The two `except` clauses of the driver loop, applied to the exception (if
any) that escaped the `try` body.  `n` is the number of `send_message` calls
the body already made (so the handler's send is the `n`-th call of the
cycle).  The third component is `none` when control falls through to the next
iteration and `some e` when exception `e` propagates out of the `try`
statement: a Python `except` clause does not catch exceptions raised inside a
sibling handler, so a `SendMessageError` raised by a handler's own
`send_message` call escapes the statement. -/
def handleExc (st1 : BotState) (env : CycleEnv) (n : Nat) :
    Option Exc → BotState × List Event × Option Exc
  | none => (st1, [], none)
  | some (Exc.checkResponseError m) =>
    if m = st1.info_message then
      (st1, [], none)
    else
      match send_message (env.sendOk n) "Бот успешно начал работу" with
      | (evs2, some e2) => (st1, Event.logInfo m :: evs2, some e2)
      | (evs2, none) => ({ st1 with info_message := m }, Event.logInfo m :: evs2, none)
  | some e =>
    let message := "Сбой в работе программы: " ++ excStr e
    if message = st1.error_message then
      (st1, [], none)
    else
      match send_message (env.sendOk n) message with
      | (evs2, some e2) => (st1, Event.logError message :: evs2, some e2)
      | (evs2, none) => ({ st1 with error_message := message }, Event.logError message :: evs2, none)

/-- One iteration of the `while True` loop: the `try` body, the two `except`
handlers, and the `finally` sleep, which runs on every way out of the `try`
statement — also when an exception is about to propagate out of the loop. -/
def runCycle (st : BotState) (env : CycleEnv) : BotState × List Event × Option Exc :=
  match tryBody st env with
  | (st1, evs, n, exc) =>
    match handleExc st1 env n exc with
    | (st2, evs2, out) => (st2, evs ++ evs2 ++ [Event.sleep RETRY_PERIOD], out)

/-- The driver loop run against a finite schedule of cycle environments:
iterates `runCycle` until the schedule is exhausted or an exception escapes
a cycle (in which case the loop, and the process, terminates with it). -/
def runCycles (st : BotState) : List CycleEnv → BotState × List Event × Option Exc
  | [] => (st, [], none)
  | env :: rest =>
    match runCycle st env with
    | (st1, evs, some e) => (st1, evs, some e)
    | (st1, evs, none) =>
      match runCycles st1 rest with
      | (st2, evs2, c) => (st2, evs ++ evs2, c)

/-- The driver's state at startup: `timestamp = int(time.time())`,
`previous_message = dict()`, empty last-error and last-info markers. -/
def initState (t0 : Int) : BotState :=
  { timestamp := .int t0, previous_message := .dict [],
    error_message := "", info_message := "" }

/-- `main()`: if a credential is missing (falsy), log critical and
`sys.exit()` (result `none`); otherwise enter the polling loop. -/
def runMain (practicumToken telegramToken telegramChatId : Option String)
    (t0 : Int) (envs : List CycleEnv) :
    Option (BotState × List Event × Option Exc) :=
  if check_tokens practicumToken telegramToken telegramChatId then
    some (runCycles (initState t0) envs)
  else
    none

/-- Recognise a Notifier invocation in the trace. -/
def isSendAttempt : Event → Bool
  | .sendAttempt _ => true
  | _ => false

/-- Number of Notifier invocations in a trace. -/
def sendAttemptCount (evs : List Event) : Nat :=
  (evs.filter isSendAttempt).length

/-- Number of successful deliveries of a given message in a trace. -/
def sentCount (evs : List Event) (msg : String) : Nat :=
  (evs.filter fun e => e == Event.sent msg).length

def botStartedMsg : String := "Бот успешно начал работу"

def sendFailMsg : String := "Ошибка отправки сообщения в чат"

def sentDebugMsg : String := "Сообщение отправлено в чат"

theorem tryBody_api_error {st : BotState} {env : CycleEnv} {e : Exc}
    (h : get_api_answer env.transport = .error e) :
    tryBody st env = (st, [], 0, some e) := by
  simp [tryBody, h]

theorem tryBody_check_error {st : BotState} {env : CycleEnv} {r : JValue} {e : Exc}
    (hr : get_api_answer env.transport = .ok r)
    (h : check_response r = .error e) :
    tryBody st env = (st, [], 0, some e) := by
  simp [tryBody, hr, h]

theorem tryBody_dedup {st : BotState} {env : CycleEnv} {r : JValue}
    (hr : get_api_answer env.transport = .ok r)
    (hc : check_response r = .ok ())
    (hd : (firstHomework r == st.previous_message) = true) :
    tryBody st env = ({ st with timestamp := currentDate r }, [], 0, none) := by
  simp [tryBody, hr, hc, hd]

theorem tryBody_parse_error {st : BotState} {env : CycleEnv} {r : JValue} {e : Exc}
    (hr : get_api_answer env.transport = .ok r)
    (hc : check_response r = .ok ())
    (hd : (firstHomework r == st.previous_message) = false)
    (hp : parse_status (firstHomework r) = .error e) :
    tryBody st env = (st, [], 0, some e) := by
  simp [tryBody, hr, hc, hd, hp]

theorem tryBody_send_ok {st : BotState} {env : CycleEnv} {r : JValue} {s : String}
    (hr : get_api_answer env.transport = .ok r)
    (hc : check_response r = .ok ())
    (hd : (firstHomework r == st.previous_message) = false)
    (hp : parse_status (firstHomework r) = .ok s)
    (hs : env.sendOk 0 = true) :
    tryBody st env =
      ({ st with previous_message := firstHomework r, timestamp := currentDate r },
       [Event.sendAttempt s, Event.sent s, Event.logDebug sentDebugMsg], 1, none) := by
  simp [tryBody, hr, hc, hd, hp, send_message, hs, sentDebugMsg]

theorem tryBody_send_fail {st : BotState} {env : CycleEnv} {r : JValue} {s : String}
    (hr : get_api_answer env.transport = .ok r)
    (hc : check_response r = .ok ())
    (hd : (firstHomework r == st.previous_message) = false)
    (hp : parse_status (firstHomework r) = .ok s)
    (hs : env.sendOk 0 = false) :
    tryBody st env =
      (st, [Event.sendAttempt s, Event.logError sendFailMsg], 1,
       some (Exc.sendMessageError sendFailMsg)) := by
  simp [tryBody, hr, hc, hd, hp, send_message, hs, sendFailMsg]

theorem runCycle_of_none {st : BotState} {env : CycleEnv} {st1 : BotState}
    {evs : List Event} {n : Nat}
    (h : tryBody st env = (st1, evs, n, none)) :
    runCycle st env = (st1, evs ++ [Event.sleep RETRY_PERIOD], none) := by
  simp [runCycle, h, handleExc]

theorem runCycle_info_dup {st : BotState} {env : CycleEnv} {st1 : BotState}
    {evs : List Event} {n : Nat} {m : String}
    (h : tryBody st env = (st1, evs, n, some (Exc.checkResponseError m)))
    (hm : m = st1.info_message) :
    runCycle st env = (st1, evs ++ [Event.sleep RETRY_PERIOD], none) := by
  simp [runCycle, h, handleExc, hm]

theorem runCycle_info_new {st : BotState} {env : CycleEnv} {st1 : BotState}
    {evs : List Event} {n : Nat} {m : String}
    (h : tryBody st env = (st1, evs, n, some (Exc.checkResponseError m)))
    (hm : m ≠ st1.info_message) (hs : env.sendOk n = true) :
    runCycle st env =
      ({ st1 with info_message := m },
       evs ++ Event.logInfo m :: Event.sendAttempt botStartedMsg :: Event.sent botStartedMsg ::
         Event.logDebug sentDebugMsg :: [Event.sleep RETRY_PERIOD], none) := by
  simp [runCycle, h, handleExc, hm, send_message, hs, botStartedMsg, sentDebugMsg]

theorem runCycle_info_sendfail {st : BotState} {env : CycleEnv} {st1 : BotState}
    {evs : List Event} {n : Nat} {m : String}
    (h : tryBody st env = (st1, evs, n, some (Exc.checkResponseError m)))
    (hm : m ≠ st1.info_message) (hs : env.sendOk n = false) :
    runCycle st env =
      (st1,
       evs ++ Event.logInfo m :: Event.sendAttempt botStartedMsg ::
         Event.logError sendFailMsg :: [Event.sleep RETRY_PERIOD],
       some (Exc.sendMessageError sendFailMsg)) := by
  simp [runCycle, h, handleExc, hm, send_message, hs, botStartedMsg, sendFailMsg]

def isCheckResponseExc : Exc → Bool
  | .checkResponseError _ => true
  | _ => false

theorem runCycle_error_dup {st : BotState} {env : CycleEnv} {st1 : BotState}
    {evs : List Event} {n : Nat} {e : Exc}
    (h : tryBody st env = (st1, evs, n, some e))
    (he : isCheckResponseExc e = false)
    (hm : "Сбой в работе программы: " ++ excStr e = st1.error_message) :
    runCycle st env = (st1, evs ++ [Event.sleep RETRY_PERIOD], none) := by
  cases e <;> simp_all [runCycle, handleExc, isCheckResponseExc]

theorem runCycle_error_new {st : BotState} {env : CycleEnv} {st1 : BotState}
    {evs : List Event} {n : Nat} {e : Exc}
    (h : tryBody st env = (st1, evs, n, some e))
    (he : isCheckResponseExc e = false)
    (hm : "Сбой в работе программы: " ++ excStr e ≠ st1.error_message)
    (hs : env.sendOk n = true) :
    runCycle st env =
      ({ st1 with error_message := "Сбой в работе программы: " ++ excStr e },
       evs ++ Event.logError ("Сбой в работе программы: " ++ excStr e) ::
         Event.sendAttempt ("Сбой в работе программы: " ++ excStr e) ::
         Event.sent ("Сбой в работе программы: " ++ excStr e) ::
         Event.logDebug sentDebugMsg :: [Event.sleep RETRY_PERIOD], none) := by
  cases e <;> simp_all [runCycle, handleExc, isCheckResponseExc, send_message, sentDebugMsg]

theorem runCycle_error_sendfail {st : BotState} {env : CycleEnv} {st1 : BotState}
    {evs : List Event} {n : Nat} {e : Exc}
    (h : tryBody st env = (st1, evs, n, some e))
    (he : isCheckResponseExc e = false)
    (hm : "Сбой в работе программы: " ++ excStr e ≠ st1.error_message)
    (hs : env.sendOk n = false) :
    runCycle st env =
      (st1,
       evs ++ Event.logError ("Сбой в работе программы: " ++ excStr e) ::
         Event.sendAttempt ("Сбой в работе программы: " ++ excStr e) ::
         Event.logError sendFailMsg :: [Event.sleep RETRY_PERIOD],
       some (Exc.sendMessageError sendFailMsg)) := by
  cases e <;> simp_all [runCycle, handleExc, isCheckResponseExc, send_message, sendFailMsg]

/-- Whether a JSON value is a dict (`isinstance(v, dict)`). -/
def JValue.isDict : JValue → Bool
  | .dict _ => true
  | _ => false

/-- Whether a JSON value is a list (`isinstance(v, list)`). -/
def JValue.isList : JValue → Bool
  | .list _ => true
  | _ => false

/-- C6: `check_response` checks in order with a distinguished error each:
not-a-mapping, missing `homeworks`, missing `current_date`, `homeworks` not a
list, empty `homeworks`; and when `homeworks` is missing the cycle's try body
exits immediately with that `KeyError` — no state change, no events, no
`send_message` call, so the Status Extractor is never reached. -/
theorem c6_validator_order :
    (∀ v : JValue, v.isDict = false →
       check_response v = .error (.typeError "Ответ API не является словарем")) ∧
    (∀ es : List (String × JValue), es.lookup "homeworks" = none →
       check_response (.dict es) = .error (.keyError "В ответе API нет ключа \"homeworks\"")) ∧
    (∀ (es : List (String × JValue)) (hw : JValue),
       es.lookup "homeworks" = some hw → es.lookup "current_date" = none →
       check_response (.dict es) = .error (.keyError "В ответе API нет ключа \"current_date\"")) ∧
    (∀ (es : List (String × JValue)) (hw cd : JValue),
       es.lookup "homeworks" = some hw → es.lookup "current_date" = some cd →
       hw.isList = false →
       check_response (.dict es) =
         .error (.typeError "В ответе API данные домашек приходят не в виде списка")) ∧
    (∀ (es : List (String × JValue)) (cd : JValue),
       es.lookup "homeworks" = some (.list []) → es.lookup "current_date" = some cd →
       check_response (.dict es) = .error (.checkResponseError "Список домашних работ пуст")) ∧
    (∀ (st : BotState) (env : CycleEnv) (es : List (String × JValue)),
       get_api_answer env.transport = .ok (.dict es) →
       es.lookup "homeworks" = none →
       tryBody st env = (st, [], 0, some (.keyError "В ответе API нет ключа \"homeworks\""))) := by
  refine ⟨?_, ?_, ?_, ?_, ?_, ?_⟩
  · intro v h
    cases v <;> simp_all [check_response, JValue.isDict]
  · intro es h
    simp [check_response, h]
  · intro es hw h1 h2
    simp [check_response, h1, h2]
  · intro es hw cd h1 h2 h3
    cases hw <;> simp_all [check_response, JValue.isList]
  · intro es cd h1 h2
    simp [check_response, h1, h2]
  · intro st env es hr h
    exact tryBody_check_error hr (by simp [check_response, h])

/-- C6 witness: the conjuncts applied at concrete responses. -/
theorem c6_validator_order_witness :
    check_response (.str "x") = .error (.typeError "Ответ API не является словарем") ∧
    check_response (.dict [("current_date", .int 1)]) =
      .error (.keyError "В ответе API нет ключа \"homeworks\"") ∧
    check_response (.dict [("homeworks", .list [.null])]) =
      .error (.keyError "В ответе API нет ключа \"current_date\"") ∧
    check_response (.dict [("homeworks", .int 3), ("current_date", .int 1)]) =
      .error (.typeError "В ответе API данные домашек приходят не в виде списка") ∧
    check_response (.dict [("homeworks", .list []), ("current_date", .int 1)]) =
      .error (.checkResponseError "Список домашних работ пуст") ∧
    tryBody (initState 0) ⟨.resp 200 (.dict [("current_date", .int 1)]), fun _ => true⟩ =
      (initState 0, [], 0, some (.keyError "В ответе API нет ключа \"homeworks\"")) := by
  refine ⟨c6_validator_order.1 _ rfl, c6_validator_order.2.1 _ rfl,
    c6_validator_order.2.2.1 _ (.list [.null]) rfl rfl,
    c6_validator_order.2.2.2.1 _ (.int 3) (.int 1) rfl rfl rfl,
    c6_validator_order.2.2.2.2.1 _ (.int 1) rfl rfl,
    c6_validator_order.2.2.2.2.2 _ _ _ rfl rfl⟩

/-- C7: `parse_status` raises a distinguished `KeyError` naming the missing
field when `homework_name` or `status` is absent, and raises the distinguished
`ParseStatusError` for every present `status` value with no verdict — and the
verdict table's keys are exactly `approved`, `reviewing`, `rejected`, so every
string outside those three (and every non-string) has no verdict. -/
theorem c7_parse_status_errors :
    (HOMEWORK_VERDICTS.map Prod.fst = ["approved", "reviewing", "rejected"]) ∧
    (∀ es : List (String × JValue), es.lookup "homework_name" = none →
       parse_status (.dict es) = .error (.keyError "В ответе API нет ключа \"homework_name\"")) ∧
    (∀ (es : List (String × JValue)) (nm : JValue),
       es.lookup "homework_name" = some nm → es.lookup "status" = none →
       parse_status (.dict es) = .error (.keyError "В ответе API нет ключа \"status\"")) ∧
    (∀ (es : List (String × JValue)) (nm stv : JValue),
       es.lookup "homework_name" = some nm → es.lookup "status" = some stv →
       statusVerdict stv = none →
       parse_status (.dict es) =
         .error (.parseStatusError "Недокументированный статус домашки, либо домашка без статуса")) ∧
    (∀ s : String, s ∉ ["approved", "reviewing", "rejected"] →
       statusVerdict (.str s) = none) ∧
    (∀ (v : JValue), (∀ s : String, v ≠ .str s) → statusVerdict v = none) := by
  refine ⟨rfl, ?_, ?_, ?_, ?_, ?_⟩
  · intro es h
    simp [parse_status, h]
  · intro es nm h1 h2
    simp [parse_status, h1, h2]
  · intro es nm stv h1 h2 h3
    simp [parse_status, h1, h2, h3]
  · intro s h
    simp at h
    have e1 : (s == "approved") = false := beq_eq_false_iff_ne.mpr h.1
    have e2 : (s == "reviewing") = false := beq_eq_false_iff_ne.mpr h.2.1
    have e3 : (s == "rejected") = false := beq_eq_false_iff_ne.mpr h.2.2
    simp [statusVerdict, HOMEWORK_VERDICTS, List.lookup, e1, e2, e3]
  · intro v h
    cases v <;> simp_all [statusVerdict]

/-- C7 witness: the conjuncts applied at concrete records. -/
theorem c7_parse_status_errors_witness :
    parse_status (.dict [("status", .str "approved")]) =
      .error (.keyError "В ответе API нет ключа \"homework_name\"") ∧
    parse_status (.dict [("homework_name", .str "hw")]) =
      .error (.keyError "В ответе API нет ключа \"status\"") ∧
    parse_status (.dict [("homework_name", .str "hw"), ("status", .str "done")]) =
      .error (.parseStatusError "Недокументированный статус домашки, либо домашка без статуса") ∧
    statusVerdict (.str "done") = none ∧
    statusVerdict (.int 7) = none := by
  refine ⟨c7_parse_status_errors.2.1 _ rfl,
    c7_parse_status_errors.2.2.1 _ (.str "hw") rfl rfl,
    c7_parse_status_errors.2.2.2.1 _ (.str "hw") (.str "done") rfl rfl rfl,
    c7_parse_status_errors.2.2.2.2.1 "done" (by decide),
    c7_parse_status_errors.2.2.2.2.2 (.int 7) (fun s => by simp)⟩

/-- C8: on the record `{"homework_name": "proj1", "status": "approved"}` the
Status Extractor produces exactly the expected formatted message; it is a
pure Lean function, hence deterministic. -/
theorem c8_parse_status_roundtrip :
    parse_status (.dict [("homework_name", .str "proj1"), ("status", .str "approved")]) =
      .ok "Изменился статус проверки работы \"proj1\". Работа проверена: ревьюеру всё понравилось. Ура!" := by
  rfl

/-- C9: `get_api_answer` collapses a transport exception and every non-200
status to the single error kind `GetApiAnswerError`, and returns the decoded
JSON body on a 200 response. -/
theorem c9_get_api_answer_spec :
    (get_api_answer .exn =
       .error (.getApiAnswerError ("Ошибка запроса к API-сервису " ++ ENDPOINT))) ∧
    (∀ (code : Nat) (body : JValue), code ≠ 200 →
       get_api_answer (.resp code body) =
         .error (.getApiAnswerError "Передано что-то неожиданное при запросе к API")) ∧
    (∀ body : JValue, get_api_answer (.resp 200 body) = .ok body) := by
  refine ⟨rfl, ?_, ?_⟩
  · intro code body h
    simp [get_api_answer, HTTPStatusOK, h]
  · intro body
    simp [get_api_answer, HTTPStatusOK]

/-- C9 witness: a transport exception, an HTTP 500 and an HTTP 200. -/
theorem c9_get_api_answer_spec_witness :
    get_api_answer (.resp 500 .null) =
      .error (.getApiAnswerError "Передано что-то неожиданное при запросе к API") ∧
    get_api_answer (.resp 200 (.int 3)) = .ok (.int 3) := by
  exact ⟨c9_get_api_answer_spec.2.1 500 .null (by decide),
    c9_get_api_answer_spec.2.2 (.int 3)⟩

theorem handleExc_timestamp (st1 : BotState) (env : CycleEnv) (n : Nat) (exc : Option Exc) :
    (handleExc st1 env n exc).1.timestamp = st1.timestamp := by
  rcases exc with _ | e
  · rfl
  · rcases hs : env.sendOk n with _ | _ <;>
      cases e <;> simp [handleExc, send_message, hs] <;> split <;> simp

theorem handleExc_previous (st1 : BotState) (env : CycleEnv) (n : Nat) (exc : Option Exc) :
    (handleExc st1 env n exc).1.previous_message = st1.previous_message := by
  rcases exc with _ | e
  · rfl
  · rcases hs : env.sendOk n with _ | _ <;>
      cases e <;> simp [handleExc, send_message, hs] <;> split <;> simp

theorem tryBody_some_state {st : BotState} {env : CycleEnv} {st1 : BotState}
    {evs : List Event} {n : Nat} {e : Exc}
    (h : tryBody st env = (st1, evs, n, some e)) : st1 = st := by
  unfold tryBody at h
  rcases hapi : get_api_answer env.transport with e' | r <;> rw [hapi] at h <;> dsimp only at h
  · simp at h
    exact h.1.symm
  · rcases hc : check_response r with e'' | u <;> rw [hc] at h <;> dsimp only at h
    · simp at h
      exact h.1.symm
    · rcases hd : (firstHomework r == st.previous_message) with _ | _ <;> simp only [hd] at h
      · rcases hp : parse_status (firstHomework r) with e3 | s <;> rw [hp] at h <;> dsimp only at h
        · simp at h
          exact h.1.symm
        · rcases hs : env.sendOk 0 with _ | _ <;> simp [send_message, hs] at h
          exact h.1.symm
      · simp at h

theorem tryBody_none_timestamp {st : BotState} {env : CycleEnv} {r : JValue}
    {st1 : BotState} {evs : List Event} {n : Nat}
    (hr : get_api_answer env.transport = .ok r)
    (h : tryBody st env = (st1, evs, n, none)) : st1.timestamp = currentDate r := by
  unfold tryBody at h
  rw [hr] at h
  dsimp only at h
  rcases hc : check_response r with e'' | u <;> rw [hc] at h <;> dsimp only at h
  · simp at h
  · rcases hd : (firstHomework r == st.previous_message) with _ | _ <;> simp only [hd] at h
    · rcases hp : parse_status (firstHomework r) with e3 | s <;> rw [hp] at h <;> dsimp only at h
      · simp at h
      · rcases hs : env.sendOk 0 with _ | _ <;> simp [send_message, hs] at h
        rw [← h.1]
    · simp at h
      rw [← h.1]

theorem runCycle_fst (st : BotState) (env : CycleEnv) :
    (runCycle st env).1 =
      (handleExc (tryBody st env).1 env (tryBody st env).2.2.1 (tryBody st env).2.2.2).1 := by
  unfold runCycle
  rcases h : tryBody st env with ⟨st1, evs, n, exc⟩
  rcases h2 : handleExc st1 env n exc with ⟨st2, evs2, out⟩
  simp [h2]

theorem sendAttemptCount_append (a b : List Event) :
    sendAttemptCount (a ++ b) = sendAttemptCount a + sendAttemptCount b := by
  simp [sendAttemptCount, List.filter_append]

/-- C5: whatever path a cycle takes — success, informational, error, or even
an exception about to escape the loop — its trace ends with the
`time.sleep(RETRY_PERIOD)` step, so the fixed delay elapses before the next
iteration begins. -/
theorem c5_sleep_every_cycle :
    ∀ (st : BotState) (env : CycleEnv), ∃ pre : List Event,
      (runCycle st env).2.1 = pre ++ [Event.sleep RETRY_PERIOD] := by
  intro st env
  rcases h : tryBody st env with ⟨st1, evs, n, exc⟩
  rcases h2 : handleExc st1 env n exc with ⟨st2, evs2, out⟩
  refine ⟨evs ++ evs2, ?_⟩
  simp [runCycle, h, h2]

/-- C2: the deduplication invariant of the driver.  (i) When the newest
submission record equals the stored `previous_message`, the cycle makes no
Notifier call at all and `previous_message` is unchanged.  (ii) When it
differs, the cycle runs the Status Extractor, makes exactly the one Notifier
call with the extracted message, and then updates `previous_message` to the
record.  (iii) Hence across two consecutive cycles whose newest record is the
same, the Notifier is invoked exactly once. -/
theorem c2_deduplication :
    (∀ (st : BotState) (env : CycleEnv) (r : JValue),
       get_api_answer env.transport = .ok r →
       check_response r = .ok () →
       (firstHomework r == st.previous_message) = true →
       sendAttemptCount (runCycle st env).2.1 = 0 ∧
       (runCycle st env).1.previous_message = st.previous_message) ∧
    (∀ (st : BotState) (env : CycleEnv) (r : JValue) (s : String),
       get_api_answer env.transport = .ok r →
       check_response r = .ok () →
       (firstHomework r == st.previous_message) = false →
       parse_status (firstHomework r) = .ok s →
       env.sendOk 0 = true →
       (runCycle st env).2.1 =
         [Event.sendAttempt s, Event.sent s, Event.logDebug sentDebugMsg,
          Event.sleep RETRY_PERIOD] ∧
       (runCycle st env).1.previous_message = firstHomework r) ∧
    (∀ (st : BotState) (env1 env2 : CycleEnv) (r1 r2 : JValue) (s : String),
       get_api_answer env1.transport = .ok r1 →
       check_response r1 = .ok () →
       (firstHomework r1 == st.previous_message) = false →
       parse_status (firstHomework r1) = .ok s →
       env1.sendOk 0 = true →
       get_api_answer env2.transport = .ok r2 →
       check_response r2 = .ok () →
       (firstHomework r2 == firstHomework r1) = true →
       sendAttemptCount ((runCycle st env1).2.1 ++
         (runCycle (runCycle st env1).1 env2).2.1) = 1) := by
  have part1 : ∀ (st : BotState) (env : CycleEnv) (r : JValue),
      get_api_answer env.transport = .ok r →
      check_response r = .ok () →
      (firstHomework r == st.previous_message) = true →
      sendAttemptCount (runCycle st env).2.1 = 0 ∧
      (runCycle st env).1.previous_message = st.previous_message := by
    intro st env r hr hc hd
    rw [runCycle_of_none (tryBody_dedup hr hc hd)]
    simp [sendAttemptCount, isSendAttempt]
  have part2 : ∀ (st : BotState) (env : CycleEnv) (r : JValue) (s : String),
      get_api_answer env.transport = .ok r →
      check_response r = .ok () →
      (firstHomework r == st.previous_message) = false →
      parse_status (firstHomework r) = .ok s →
      env.sendOk 0 = true →
      (runCycle st env).2.1 =
        [Event.sendAttempt s, Event.sent s, Event.logDebug sentDebugMsg,
         Event.sleep RETRY_PERIOD] ∧
      (runCycle st env).1.previous_message = firstHomework r := by
    intro st env r s hr hc hd hp hs
    rw [runCycle_of_none (tryBody_send_ok hr hc hd hp hs)]
    simp
  refine ⟨part1, part2, ?_⟩
  intro st env1 env2 r1 r2 s hr1 hc1 hd1 hp1 hs1 hr2 hc2 hd2
  obtain ⟨hevs1, hprev1⟩ := part2 st env1 r1 s hr1 hc1 hd1 hp1 hs1
  have hd2' : (firstHomework r2 == (runCycle st env1).1.previous_message) = true := by
    rw [hprev1]; exact hd2
  obtain ⟨hcount2, _⟩ := part1 (runCycle st env1).1 env2 r2 hr2 hc2 hd2'
  rw [sendAttemptCount_append, hevs1, hcount2]
  simp [sendAttemptCount, isSendAttempt]

/-- The submission record used by concrete runs. -/
def hwRecord : JValue := .dict [("homework_name", .str "proj1"), ("status", .str "approved")]

/-- A well-formed API response carrying `hwRecord` and `current_date = 10`. -/
def okBody : JValue := .dict [("homeworks", .list [hwRecord]), ("current_date", .int 10)]

/-- A cycle in which the fetch succeeds with `okBody` and every send succeeds. -/
def okEnv : CycleEnv := ⟨.resp 200 okBody, fun _ => true⟩

/-- The message `parse_status` produces for `hwRecord`. -/
def approvedMsg : String :=
  "Изменился статус проверки работы \"proj1\". Работа проверена: ревьюеру всё понравилось. Ура!"

/-- C2 witness: a first cycle notifying about `hwRecord` followed by a cycle
with the same newest record — one Notifier call in cycle one, one in total. -/
theorem c2_deduplication_witness :
    (runCycle (initState 0) okEnv).2.1 =
      [Event.sendAttempt approvedMsg, Event.sent approvedMsg, Event.logDebug sentDebugMsg,
       Event.sleep RETRY_PERIOD] ∧
    sendAttemptCount ((runCycle (initState 0) okEnv).2.1 ++
      (runCycle (runCycle (initState 0) okEnv).1 okEnv).2.1) = 1 := by
  exact ⟨(c2_deduplication.2.1 (initState 0) okEnv okBody approvedMsg rfl rfl rfl rfl rfl).1,
    c2_deduplication.2.2 (initState 0) okEnv okEnv okBody okBody approvedMsg
      rfl rfl rfl rfl rfl rfl rfl rfl⟩

/-- C4: cursor atomicity.  (i) On a non-200 fetch (e.g. HTTP 500) the cycle
leaves the cursor unchanged, sends the error notification exactly once (when
its text is new and the send succeeds), and the loop continues.  (ii) On any
cycle whose try body raises, the cursor is unchanged.  (iii) On a cycle whose
try body completes, the cursor is updated to the response's `current_date`. -/
theorem c4_cursor_atomicity :
    (∀ (st : BotState) (env : CycleEnv) (code : Nat) (body : JValue),
       env.transport = .resp code body → code ≠ 200 →
       env.sendOk 0 = true →
       ("Сбой в работе программы: " ++ "Передано что-то неожиданное при запросе к API")
         ≠ st.error_message →
       (runCycle st env).1.timestamp = st.timestamp ∧
       sendAttemptCount (runCycle st env).2.1 = 1 ∧
       (runCycle st env).2.2 = none) ∧
    (∀ (st : BotState) (env : CycleEnv) (st1 : BotState) (evs : List Event)
       (n : Nat) (e : Exc),
       tryBody st env = (st1, evs, n, some e) →
       (runCycle st env).1.timestamp = st.timestamp) ∧
    (∀ (st : BotState) (env : CycleEnv) (r : JValue) (st1 : BotState)
       (evs : List Event) (n : Nat),
       get_api_answer env.transport = .ok r →
       tryBody st env = (st1, evs, n, none) →
       (runCycle st env).1.timestamp = currentDate r) := by
  refine ⟨?_, ?_, ?_⟩
  · intro st env code body htr hcode hs hm
    have hapi : get_api_answer env.transport =
        .error (.getApiAnswerError "Передано что-то неожиданное при запросе к API") := by
      rw [htr]
      simp [get_api_answer, HTTPStatusOK, hcode]
    have hb := @tryBody_api_error st env _ hapi
    have hrun := runCycle_error_new hb (by simp [isCheckResponseExc])
      (by simpa [excStr] using hm) hs
    rw [hrun]
    refine ⟨rfl, ?_, rfl⟩
    simp [sendAttemptCount, isSendAttempt]
  · intro st env st1 evs n e h
    have hst := tryBody_some_state h
    rw [runCycle_fst, h]
    dsimp only
    rw [handleExc_timestamp, hst]
  · intro st env r st1 evs n hr h
    rw [runCycle_of_none h]
    dsimp only
    exact tryBody_none_timestamp hr h

/-- An HTTP 500 cycle whose sends would succeed. -/
def env500 : CycleEnv := ⟨.resp 500 .null, fun _ => true⟩

/-- C4 witness: HTTP 500 from the starting state, and a successful cycle. -/
theorem c4_cursor_atomicity_witness :
    ((runCycle (initState 0) env500).1.timestamp = (initState 0).timestamp ∧
     sendAttemptCount (runCycle (initState 0) env500).2.1 = 1 ∧
     (runCycle (initState 0) env500).2.2 = none) ∧
    (runCycle (initState 0) env500).1.timestamp = (initState 0).timestamp ∧
    (runCycle (initState 0) okEnv).1.timestamp = currentDate okBody := by
  refine ⟨c4_cursor_atomicity.1 (initState 0) env500 500 .null rfl (by decide) rfl (by decide),
    c4_cursor_atomicity.2.1 (initState 0) env500 (initState 0) [] 0
      (.getApiAnswerError "Передано что-то неожиданное при запросе к API") rfl,
    c4_cursor_atomicity.2.2 (initState 0) okEnv okBody
      { timestamp := .int 10, previous_message := hwRecord,
        error_message := "", info_message := "" }
      [Event.sendAttempt approvedMsg, Event.sent approvedMsg, Event.logDebug sentDebugMsg] 1
      rfl rfl⟩

/-- C10: when the Notifier raises during the success-path send, neither the
stored previous submission nor the poll cursor is updated (both assignments
sit after the send in the try body), so a next cycle with the same response
retries the notification and only then records the submission. -/
theorem c10_send_failure_frame :
    ∀ (st : BotState) (env : CycleEnv) (r : JValue) (s : String),
      get_api_answer env.transport = .ok r →
      check_response r = .ok () →
      (firstHomework r == st.previous_message) = false →
      parse_status (firstHomework r) = .ok s →
      env.sendOk 0 = false →
      (runCycle st env).1.previous_message = st.previous_message ∧
      (runCycle st env).1.timestamp = st.timestamp ∧
      (∀ env2 : CycleEnv,
        (runCycle st env).2.2 = none →
        env2.transport = env.transport →
        env2.sendOk 0 = true →
        Event.sendAttempt s ∈ (runCycle (runCycle st env).1 env2).2.1 ∧
        (runCycle (runCycle st env).1 env2).1.previous_message = firstHomework r) := by
  intro st env r s hr hc hd hp hs
  have hb := @tryBody_send_fail st env _ _ hr hc hd hp hs
  have hprev : (runCycle st env).1.previous_message = st.previous_message := by
    rw [runCycle_fst, hb]
    dsimp only
    rw [handleExc_previous]
  refine ⟨hprev, ?_, ?_⟩
  · rw [runCycle_fst, hb]
    dsimp only
    rw [handleExc_timestamp]
  · intro env2 _ htr2 hs2
    have hr2 : get_api_answer env2.transport = .ok r := by rw [htr2]; exact hr
    have hd2 : (firstHomework r == (runCycle st env).1.previous_message) = false := by
      rw [hprev]; exact hd
    have hb2 := @tryBody_send_ok (runCycle st env).1 env2 _ _ hr2 hc hd2 hp hs2
    rw [runCycle_of_none hb2]
    simp

/-- A cycle whose success-path send fails but whose handler send succeeds. -/
def failFirstEnv : CycleEnv := ⟨.resp 200 okBody, fun k => k != 0⟩

/-- C10 witness: the failed send leaves the state untouched and the next
cycle with the same response delivers the notification and records it. -/
theorem c10_send_failure_frame_witness :
    (runCycle (initState 0) failFirstEnv).1.previous_message = (initState 0).previous_message ∧
    (runCycle (initState 0) failFirstEnv).1.timestamp = (initState 0).timestamp ∧
    Event.sendAttempt approvedMsg ∈ (runCycle (runCycle (initState 0) failFirstEnv).1 okEnv).2.1 ∧
    (runCycle (runCycle (initState 0) failFirstEnv).1 okEnv).1.previous_message =
      firstHomework okBody := by
  obtain ⟨h1, h2, h3⟩ :=
    c10_send_failure_frame (initState 0) failFirstEnv okBody approvedMsg rfl rfl rfl rfl rfl
  obtain ⟨h4, h5⟩ := h3 okEnv rfl rfl rfl
  exact ⟨h1, h2, h4, h5⟩

def emptyMsg : String := "Список домашних работ пуст"

/-- A cycle whose fetch succeeds and whose validation reports the empty
homework list (the only source of `CheckResponseError`, always with the same
fixed message). -/
def isEmptyListCycle (env : CycleEnv) : Prop :=
  ∃ r, get_api_answer env.transport = .ok r ∧
    check_response r = .error (.checkResponseError emptyMsg)

theorem runCycle_empty_swallowed {st : BotState} {env : CycleEnv}
    (he : isEmptyListCycle env) (hm : st.info_message = emptyMsg) :
    runCycle st env = (st, [Event.sleep RETRY_PERIOD], none) := by
  obtain ⟨r, hr, hc⟩ := he
  have hb := @tryBody_check_error st env _ _ hr hc
  rw [runCycle_info_dup hb hm.symm]
  simp

theorem runCycle_empty_first {st : BotState} {env : CycleEnv}
    (he : isEmptyListCycle env) (hm : st.info_message ≠ emptyMsg)
    (hs : env.sendOk 0 = true) :
    runCycle st env =
      ({ st with info_message := emptyMsg },
       [Event.logInfo emptyMsg, Event.sendAttempt botStartedMsg, Event.sent botStartedMsg,
        Event.logDebug sentDebugMsg, Event.sleep RETRY_PERIOD], none) := by
  obtain ⟨r, hr, hc⟩ := he
  have hb := @tryBody_check_error st env _ _ hr hc
  rw [runCycle_info_new hb (Ne.symm hm) hs]
  simp

theorem runCycles_empty_steady :
    ∀ (envs : List CycleEnv) (st : BotState),
      (∀ env ∈ envs, isEmptyListCycle env) →
      st.info_message = emptyMsg →
      runCycles st envs =
        (st, List.replicate envs.length (Event.sleep RETRY_PERIOD), none) := by
  intro envs
  induction envs with
  | nil => intro st _ _; rfl
  | cons env rest ih =>
    intro st hall hm
    have h1 := runCycle_empty_swallowed (hall env (by simp)) hm
    have h2 := ih st (fun e he => hall e (by simp [he])) hm
    simp [runCycles, h1, h2, List.replicate_succ]

theorem sentCount_append (a b : List Event) (msg : String) :
    sentCount (a ++ b) msg = sentCount a msg + sentCount b msg := by
  simp [sentCount, List.filter_append]

theorem sentCount_replicate_sleep (n d : Nat) (msg : String) :
    sentCount (List.replicate n (Event.sleep d)) msg = 0 := by
  induction n with
  | zero => rfl
  | succ k ih => simp [List.replicate_succ, sentCount]

/-- C3: a run in which every cycle hits the empty homework list, starting
from startup state: the loop never crashes, the fixed "bot started"
notification is delivered exactly once (on the first cycle), and the repeats
are silently swallowed. -/
theorem c3_empty_list_started_once :
    ∀ (t0 : Int) (envs : List CycleEnv),
      envs ≠ [] →
      (∀ env ∈ envs, isEmptyListCycle env) →
      (∀ env ∈ envs, ∀ k, env.sendOk k = true) →
      (runCycles (initState t0) envs).2.2 = none ∧
      sentCount (runCycles (initState t0) envs).2.1 botStartedMsg = 1 := by
  intro t0 envs hne hall hsend
  rcases envs with _ | ⟨env, rest⟩
  · exact absurd rfl hne
  have hm : (initState t0).info_message ≠ emptyMsg := by
    rw [show (initState t0).info_message = "" from rfl]
    decide
  have h1 := runCycle_empty_first (hall env (by simp)) hm (hsend env (by simp) 0)
  have h2 := runCycles_empty_steady rest { initState t0 with info_message := emptyMsg }
    (fun e he => hall e (by simp [he])) rfl
  constructor
  · simp [runCycles, h1, h2]
  · rw [show (runCycles (initState t0) (env :: rest)).2.1 =
        [Event.logInfo emptyMsg, Event.sendAttempt botStartedMsg, Event.sent botStartedMsg,
         Event.logDebug sentDebugMsg, Event.sleep RETRY_PERIOD] ++
        List.replicate rest.length (Event.sleep RETRY_PERIOD) from by
      simp [runCycles, h1, h2]]
    rw [sentCount_append, sentCount_replicate_sleep]
    decide

/-- A well-formed response whose homework list is empty. -/
def emptyBody : JValue := .dict [("homeworks", .list []), ("current_date", .int 5)]

/-- A cycle that fetches `emptyBody` and whose sends succeed. -/
def emptyEnv : CycleEnv := ⟨.resp 200 emptyBody, fun _ => true⟩

/-- C3 witness: three consecutive empty-list cycles — no crash, one "bot
started" delivery. -/
theorem c3_empty_list_started_once_witness :
    (runCycles (initState 0) [emptyEnv, emptyEnv, emptyEnv]).2.2 = none ∧
    sentCount (runCycles (initState 0) [emptyEnv, emptyEnv, emptyEnv]).2.1 botStartedMsg = 1 := by
  refine c3_empty_list_started_once 0 [emptyEnv, emptyEnv, emptyEnv] (by simp) ?_ ?_
  · intro env h
    simp at h
    exact h ▸ ⟨emptyBody, rfl, rfl⟩
  · intro env h k
    simp at h
    exact h ▸ rfl

theorem handleExc_crash {st1 : BotState} {env : CycleEnv} {n : Nat}
    {exc : Option Exc} {e : Exc}
    (h : (handleExc st1 env n exc).2.2 = some e) :
    e = .sendMessageError sendFailMsg := by
  rcases exc with _ | ex
  · simp [handleExc] at h
  · rcases hs : env.sendOk n with _ | _ <;>
      cases ex <;> simp_all [handleExc, send_message, hs, sendFailMsg] <;>
      (try split at h) <;> simp_all

theorem handleExc_no_crash (st1 : BotState) (env : CycleEnv) (n : Nat)
    (exc : Option Exc) (hs : ∀ k, env.sendOk k = true) :
    (handleExc st1 env n exc).2.2 = none := by
  rcases exc with _ | ex
  · rfl
  · cases ex <;> simp [handleExc, send_message, hs n] <;> split <;> simp

theorem runCycle_no_crash (st : BotState) (env : CycleEnv)
    (hs : ∀ k, env.sendOk k = true) :
    (runCycle st env).2.2 = none := by
  rcases h : tryBody st env with ⟨st1, evs, n, exc⟩
  rcases h2 : handleExc st1 env n exc with ⟨st2, evs2, out⟩
  have h3 := handleExc_no_crash st1 env n exc hs
  rw [h2] at h3
  simp at h3
  simp [runCycle, h, h2, h3]

theorem runCycles_no_crash :
    ∀ (envs : List CycleEnv) (st : BotState),
      (∀ env ∈ envs, ∀ k, env.sendOk k = true) →
      (runCycles st envs).2.2 = none := by
  intro envs
  induction envs with
  | nil => intro st _; rfl
  | cons env rest ih =>
    intro st hall
    have h1 := runCycle_no_crash st env (hall env (by simp))
    rcases h : runCycle st env with ⟨st1, evs, out⟩
    rw [h] at h1
    subst h1
    have h2 := ih st1 (fun e he => hall e (by simp [he]))
    rcases hr : runCycles st1 rest with ⟨st2, evs2, c⟩
    rw [hr] at h2
    simp at h2
    simp [runCycles, h, hr, h2]

/-- An empty-list cycle in which every Telegram send fails: the handler's
own `send_message` raises and the exception escapes the loop. -/
def crashEnv : CycleEnv := ⟨.resp 200 emptyBody, fun _ => false⟩

/-- C1 counterexample: after a successful startup (all three credentials
present), a single cycle in which the empty-list condition is being handled
and the notifier fails makes the `SendMessageError` escape the loop — the
run terminates with a propagating exception instead of proceeding to a next
cycle, refuting the claim that every exception raised inside a cycle is
caught. -/
theorem c1_counterexample :
    runMain (some "a") (some "b") (some "c") 0 [crashEnv] =
      some (initState 0,
        [Event.logInfo emptyMsg, Event.sendAttempt botStartedMsg,
         Event.logError sendFailMsg, Event.sleep RETRY_PERIOD],
        some (Exc.sendMessageError sendFailMsg)) := by
  rfl

/-- C1 amended: after a successful startup, (i) if the Notifier never fails
then no exception ever escapes a cycle — every error is caught, converted to
a logged notification, and the loop runs the whole schedule; and (ii) the
only exception that can ever escape a cycle is the `SendMessageError` raised
by a handler's own notification send. -/
theorem c1_amended_loop_survives :
    (∀ (p t c : Option String) (t0 : Int) (envs : List CycleEnv),
       check_tokens p t c = true →
       (∀ env ∈ envs, ∀ k, env.sendOk k = true) →
       ∃ res, runMain p t c t0 envs = some res ∧ res.2.2 = none) ∧
    (∀ (st : BotState) (env : CycleEnv) (e : Exc),
       (runCycle st env).2.2 = some e →
       e = .sendMessageError sendFailMsg) := by
  constructor
  · intro p t c t0 envs htok hall
    refine ⟨runCycles (initState t0) envs, ?_, runCycles_no_crash envs (initState t0) hall⟩
    simp [runMain, htok]
  · intro st env e h
    rcases hb : tryBody st env with ⟨st1, evs, n, exc⟩
    rcases h2 : handleExc st1 env n exc with ⟨st2, evs2, out⟩
    have hco : (runCycle st env).2.2 = out := by simp [runCycle, hb, h2]
    rw [hco] at h
    refine @handleExc_crash st1 env n exc e ?_
    rw [h2]
    exact h

/-- C1 amended witness: a concrete all-sends-succeed run survives, and the
concrete escaping exception of `crashEnv` is the handler's send failure. -/
theorem c1_amended_loop_survives_witness :
    (∃ res, runMain (some "a") (some "b") (some "c") 0 [okEnv] = some res ∧
      res.2.2 = none) ∧
    Exc.sendMessageError sendFailMsg = .sendMessageError sendFailMsg := by
  refine ⟨c1_amended_loop_survives.1 (some "a") (some "b") (some "c") 0 [okEnv] rfl ?_,
    c1_amended_loop_survives.2 (initState 0) crashEnv (.sendMessageError sendFailMsg) rfl⟩
  intro env h k
  simp at h
  exact h ▸ rfl
